import Mathlib

/-!
Verification of the GitHub Milestones/Issues Importer against its
specification. The definitions below are a shallow embedding of the Python
sources:

* `github_importer/github_api/github_client.py`
  (`_handle_rate_limit`, `_make_request`, `delete_all_issues`,
  `delete_issues_individually`)
* `github_importer/import_export/data_importer.py` (`DataImporter.import_data`)
* `github_importer/auth/auth_manager.py` (`AuthManager.refresh_access_token`)
* `github_importer/utils/token_storage.py`
  (`TokenStorage.save_tokens`, `TokenStorage.load_tokens`)

Network I/O is modelled by oracles describing the server's behaviour; the
embedding records the observable effects (physical requests issued, sleeps
performed, events emitted) as explicit trace data.
-/

/-- A rate-limit header value as seen by
`int(response.headers.get(name, 0))`: the header may be absent (the Python
code then falls back to the integer default `0`), present but not parseable
as an integer (Python `int()` raises `ValueError`), or present with an
integer value. -/
inductive HeaderVal where
  | absent
  | malformed
  | val (n : Int)
deriving DecidableEq, Repr

/-- An HTTP response as far as `GitHubClient` inspects it: status code and
the rate-limit headers. `retryAfter` models a `Retry-After` header; the
Python client never reads it (relevant to the backoff-policy claims). -/
structure HttpResponse where
  status : Nat
  remaining : HeaderVal
  reset : HeaderVal
  retryAfter : HeaderVal
deriving DecidableEq, Repr

/-- Python `int(header_value_or_default_0)`: absent headers become `0`,
malformed headers raise `ValueError` (modelled as `none`). -/
def parseIntHeader : HeaderVal → Option Int
  | HeaderVal.absent => some 0
  | HeaderVal.malformed => none
  | HeaderVal.val n => some n

/-- Result of `GitHubClient._handle_rate_limit`: the updated
`rate_limit_remaining` / `rate_limit_reset` fields, whether the
`time.sleep` branch was taken, and the duration passed to `time.sleep`. -/
structure RateLimitResult where
  remaining : Int
  reset : Int
  slept : Bool
  waitTime : Int
deriving DecidableEq, Repr

/-- Outcome of `_handle_rate_limit`: either it returns normally, or the
`int(...)` conversion of a malformed header raises `ValueError`. -/
inductive RLOutcome where
  | ok (r : RateLimitResult)
  | valueError
deriving DecidableEq, Repr

/-- Embedding of `GitHubClient._handle_rate_limit` (github_client.py, lines
62-75). It parses `X-RateLimit-Remaining` and `X-RateLimit-Reset` with
default `0`, and whenever `remaining < 10` it sleeps for
`max(reset - time.time(), 0)`. `now` stands for `time.time()`. -/
def handle_rate_limit (resp : HttpResponse) (now : Int) : RLOutcome :=
  match parseIntHeader resp.remaining with
  | none => RLOutcome.valueError
  | some rem =>
    match parseIntHeader resp.reset with
    | none => RLOutcome.valueError
    | some rst =>
      if rem < 10 then RLOutcome.ok ⟨rem, rst, true, max (rst - now) 0⟩
      else RLOutcome.ok ⟨rem, rst, false, 0⟩

/-- What the transport layer does for the single `requests.request` call in
`_make_request`: either the request itself raises
(`requests.exceptions.RequestException`, e.g. a timeout), or a response
arrives. -/
inductive ReqOutcome where
  | netExc
  | resp (r : HttpResponse)
deriving DecidableEq, Repr

/-- Classified failure of `_make_request`: a transport-level
`RequestException`, a `ValueError` escaping from `_handle_rate_limit`, or
an `HTTPError` from `response.raise_for_status()`. -/
inductive RequestError where
  | transport
  | valueError
  | httpError (status : Nat)
deriving DecidableEq, Repr

/-- Result of `_make_request`: the returned response or the raised error. -/
inductive ReqResult where
  | ok (r : HttpResponse)
  | err (e : RequestError)
deriving DecidableEq, Repr

/-- Observable trace of one `GitHubClient._make_request` call: how many
physical HTTP requests were issued, how many times the auth manager's
refresh operation was invoked, the durations passed to `time.sleep`, and
the final result. -/
structure MakeRequestTrace where
  physicalRequests : Nat
  refreshCalls : Nat
  sleeps : List Int
  result : ReqResult
deriving DecidableEq, Repr

/-- Embedding of `GitHubClient._make_request` (github_client.py, lines
77-96). The body issues exactly one `requests.request` call, runs
`_handle_rate_limit` on the response, then `raise_for_status()`; any
`RequestException` is logged and re-raised. There is no retry loop and no
call to `auth_manager` anywhere in the method, so `physicalRequests` is
structurally `1` and `refreshCalls` structurally `0`. -/
def make_request (outcome : ReqOutcome) (now : Int) : MakeRequestTrace :=
  match outcome with
  | ReqOutcome.netExc => ⟨1, 0, [], ReqResult.err RequestError.transport⟩
  | ReqOutcome.resp r =>
    match handle_rate_limit r now with
    | RLOutcome.valueError => ⟨1, 0, [], ReqResult.err RequestError.valueError⟩
    | RLOutcome.ok rl =>
      let sl := if rl.slept then [rl.waitTime] else []
      if r.status < 400 then ⟨1, 0, sl, ReqResult.ok r⟩
      else ⟨1, 0, sl, ReqResult.err (RequestError.httpError r.status)⟩

/-! ## Bulk import engine (`DataImporter.import_data`) -/

/-- One issue entry of the import document; only its presence matters for
the call-trace claims. -/
structure IssueData where
  title : String
deriving DecidableEq, Repr

/-- One milestone entry of the import document, with its
`milestone_data.get("issues", [])` list. -/
structure MilestoneData where
  title : String
  issues : List IssueData
deriving DecidableEq, Repr

/-- Outcome of one `github_client.create_milestone` call:
`ok id` is a truthy JSON response carrying `"id"`, `falsy` is a response
whose `response.json()` is falsy (the `if milestone_response:` guard in
`import_data` then skips the milestone's issues), and `exc` is a raised
exception (the normal failure mode: `_make_request` re-raises any
`RequestException`, including the `HTTPError` from `raise_for_status`). -/
inductive MResult where
  | ok (serverId : Int)
  | falsy
  | exc
deriving DecidableEq, Repr

/-- Outcome of one `github_client.create_issue` call: a normal return or a
raised exception. -/
inductive IResult where
  | ok
  | exc
deriving DecidableEq, Repr

/-- Network calls made by `import_data`: `mkMilestone i` is the
`create_milestone` call for the milestone at position `i` of the document;
`mkIssue i j mid` is the `create_issue` call for issue `j` of milestone
`i`, carrying `milestone = mid` (the server-assigned id) in its payload. -/
inductive Event where
  | mkMilestone (i : Nat)
  | mkIssue (i : Nat) (j : Nat) (milestoneId : Int)
deriving DecidableEq, Repr

/-- Inner loop of `import_data`: `for issue_data in
milestone_data.get("issues", []): ... create_issue(...)`. A raised
exception propagates to `import_data`'s outer `except Exception` handler,
which returns `False`; the trace records the calls that were made. -/
def import_issues_loop (i : Nat) (mid : Int) (iO : Nat → Nat → IResult) :
    List IssueData → Nat → List Event × Bool
  | [], _ => ([], true)
  | _ :: rest, j =>
    match iO i j with
    | IResult.ok =>
      let t := import_issues_loop i mid iO rest (j + 1)
      (Event.mkIssue i j mid :: t.1, t.2)
    | IResult.exc => ([Event.mkIssue i j mid], false)

/-- Outer loop of `import_data`: `for milestone_data in data`. Each
iteration calls `create_milestone`; on a truthy response it creates the
milestone's issues with the returned `"id"` as back-reference, on a falsy
response it silently skips them, and a raised exception aborts the
whole import (it is caught only by `import_data`'s outer `except`, which returns
`False`). -/
def import_milestones_loop (mO : Nat → MResult) (iO : Nat → Nat → IResult) :
    List MilestoneData → Nat → List Event × Bool
  | [], _ => ([], true)
  | m :: rest, i =>
    match mO i with
    | MResult.exc => ([Event.mkMilestone i], false)
    | MResult.falsy =>
      let t := import_milestones_loop mO iO rest (i + 1)
      (Event.mkMilestone i :: t.1, t.2)
    | MResult.ok mid =>
      let ti := import_issues_loop i mid iO m.issues 0
      if ti.2 then
        let t := import_milestones_loop mO iO rest (i + 1)
        (Event.mkMilestone i :: (ti.1 ++ t.1), t.2)
      else (Event.mkMilestone i :: ti.1, false)

/-- Outcome of `open(import_file)` followed by `json.load`: the file may be
missing (`FileNotFoundError`), hold invalid JSON (`json.JSONDecodeError`),
or parse into a milestone list. -/
inductive FileOutcome where
  | missing
  | badJson
  | parsed (doc : List MilestoneData)
deriving DecidableEq, Repr

/-- Embedding of `DataImporter.import_data` (data_importer.py, lines
11-36): read and parse the file (both error branches return `False` before
any client call), then run the milestone loop; the returned `Bool` is the
method's return value and the `List Event` the network calls it issued. -/
def import_data (f : FileOutcome) (mO : Nat → MResult) (iO : Nat → Nat → IResult) :
    List Event × Bool :=
  match f with
  | FileOutcome.missing => ([], false)
  | FileOutcome.badJson => ([], false)
  | FileOutcome.parsed doc => import_milestones_loop mO iO doc 0

/-! ## Bulk delete (`delete_all_issues`, `delete_issues_individually`) -/

/-- One page of the GraphQL `issues(first: 100, after: cursor)` query as
consumed by `delete_all_issues`: the issue node ids of the page and the
`pageInfo.hasNextPage` flag. -/
structure GqlPage where
  nodes : List String
  hasNextPage : Bool
deriving DecidableEq, Repr

/-- Outcome of one GraphQL list query: a page, or a failure (an
`HTTPError` from `raise_for_status` or a GraphQL `errors` payload, both of
which raise inside `delete_all_issues`). -/
inductive ListOutcome where
  | page (p : GqlPage)
  | listError
deriving DecidableEq, Repr

/-- Result of the pagination loop of `delete_all_issues`: normal completion
with the number of list queries issued and the collected node ids, an
exception raised after some number of queries, or (degenerate) the oracle
ran out of pages while `has_next_page` was still true. -/
inductive CollectResult where
  | done (queries : Nat) (ids : List String)
  | raised (queries : Nat)
  | oracleExhausted
deriving DecidableEq, Repr

/-- Embedding of the `while has_next_page:` pagination loop of
`GitHubClient.delete_all_issues` (github_client.py, lines 254-346):
`has_next_page` starts `True`, each iteration issues one GraphQL query,
appends the page's node ids, and continues iff `pageInfo.hasNextPage`. -/
def collect_issue_ids : List ListOutcome → CollectResult
  | [] => CollectResult.oracleExhausted
  | ListOutcome.listError :: _ => CollectResult.raised 1
  | ListOutcome.page p :: rest =>
    if p.hasNextPage then
      match collect_issue_ids rest with
      | CollectResult.done q ids => CollectResult.done (q + 1) (p.nodes ++ ids)
      | CollectResult.raised q => CollectResult.raised (q + 1)
      | CollectResult.oracleExhausted => CollectResult.oracleExhausted
    else CollectResult.done 1 p.nodes

/-- Outcome of one `deleteIssue` GraphQL mutation in
`delete_issues_individually`: success, a GraphQL `errors` payload (logged
as a warning, loop continues), or a `RequestException` (caught by the
per-iteration `except`, logged, loop continues; the `time.sleep(0.5)` of
that iteration is skipped because the exception fires before it). -/
inductive DelOutcome where
  | ok
  | gqlError
  | httpExc
deriving DecidableEq, Repr

/-- Observable trace of `delete_issues_individually`: the node ids for
which a delete mutation was issued (in order), the number of per-issue
errors logged, and the number of `time.sleep(0.5)` calls. -/
structure DeleteTrace where
  attempted : List String
  errorsLogged : Nat
  sleeps : Nat
deriving DecidableEq, Repr

/-- Embedding of `GitHubClient.delete_issues_individually`
(github_client.py, lines 348-392): `for node_id in issue_node_ids:` with a
`try/except` per iteration, so every id gets its mutation attempted no
matter how earlier iterations fared. -/
def delete_issues_individually (dO : Nat → DelOutcome) :
    List String → Nat → DeleteTrace
  | [], _ => ⟨[], 0, 0⟩
  | nodeId :: rest, k =>
    let t := delete_issues_individually dO rest (k + 1)
    match dO k with
    | DelOutcome.ok => ⟨nodeId :: t.attempted, t.errorsLogged, t.sleeps + 1⟩
    | DelOutcome.gqlError => ⟨nodeId :: t.attempted, t.errorsLogged + 1, t.sleeps + 1⟩
    | DelOutcome.httpExc => ⟨nodeId :: t.attempted, t.errorsLogged + 1, t.sleeps⟩

/-- Result of `delete_all_issues`: pagination plus the per-issue deletion
pass, or the exception raised during pagination. -/
inductive BulkDeleteResult where
  | done (listQueries : Nat) (del : DeleteTrace)
  | raised (listQueries : Nat)
  | oracleExhausted
deriving DecidableEq, Repr

/-- Embedding of `GitHubClient.delete_all_issues`: page through all issues
collecting node ids, then call `delete_issues_individually` on the full
list. -/
def delete_all_issues (outs : List ListOutcome) (dO : Nat → DelOutcome) :
    BulkDeleteResult :=
  match collect_issue_ids outs with
  | CollectResult.done q ids => BulkDeleteResult.done q (delete_issues_individually dO ids 0)
  | CollectResult.raised q => BulkDeleteResult.raised q
  | CollectResult.oracleExhausted => BulkDeleteResult.oracleExhausted

/-! ## Credential refresh (`AuthManager.refresh_access_token`) -/

/-- The token pair held by `AuthManager` (`self.access_token`,
`self.refresh_token`), both `None`-able. -/
structure AuthState where
  accessToken : Option String
  refreshToken : Option String
deriving DecidableEq, Repr

/-- What the refresh POST to `github.com/login/oauth/access_token` does:
`netExc` — `requests.post` itself raises (this happens outside the
method's `try`, so the exception escapes); `httpError` —
`raise_for_status()` raises, caught, method returns `False`;
`jsonNoToken` — 2xx response without an `"access_token"` key;
`jsonToken tok newRefresh` — 2xx response with `"access_token": tok` and
optionally a `"refresh_token"`. -/
inductive RefreshOutcome where
  | netExc
  | httpError
  | jsonNoToken
  | jsonToken (tok : String) (newRefresh : Option String)
deriving DecidableEq, Repr

/-- Result of `refresh_access_token`: a returned boolean together with the
token state after the call, or an uncaught exception (state unchanged). -/
inductive RefreshResult where
  | returned (b : Bool) (st : AuthState)
  | raised (st : AuthState)
deriving DecidableEq, Repr

/-- Embedding of `AuthManager.refresh_access_token` (auth_manager.py, lines
119-157): no refresh token → `False`; HTTP error → `False`; response
without `"access_token"` → `False`; otherwise install the new access token,
take `json.get("refresh_token", self.refresh_token)` as the new refresh
token, and return `True`. Token-file persistence errors are swallowed and
do not affect the returned value or the in-memory state. -/
def refresh_access_token (st : AuthState) (o : RefreshOutcome) : RefreshResult :=
  match st.refreshToken with
  | none => RefreshResult.returned false st
  | some rt =>
    match o with
    | RefreshOutcome.netExc => RefreshResult.raised st
    | RefreshOutcome.httpError => RefreshResult.returned false st
    | RefreshOutcome.jsonNoToken => RefreshResult.returned false st
    | RefreshOutcome.jsonToken tok newR =>
      RefreshResult.returned true ⟨some tok, some (newR.getD rt)⟩

/-! ## Token persistence (`TokenStorage`) -/

/-- A minimal JSON value, enough to express the `tokens.json` file that
`TokenStorage` writes and reads. -/
inductive Json where
  | null
  | str (s : String)
  | obj (fields : List (String × Json))

/-- Python `dict.get(key)`: the value stored under the key, or `None`. -/
def jsonGet (j : Json) (key : String) : Option Json :=
  match j with
  | Json.obj fields => (fields.find? (fun p => p.1 == key)).map Prod.snd
  | _ => none

/-- Embedding of `TokenStorage.save_tokens` (token_storage.py, lines 8-18)
for string tokens: `json.dump({"access_token": ..., "refresh_token": ...})`
— the resulting file contents as a JSON value. -/
def save_tokens (accessToken refreshToken : String) : Json :=
  Json.obj [("access_token", Json.str accessToken),
            ("refresh_token", Json.str refreshToken)]

/-- Embedding of `TokenStorage.load_tokens` (token_storage.py, lines
20-30): if the token file does not exist (`none`), return `(None, None)`;
otherwise parse it and return `(tokens.get("access_token"),
tokens.get("refresh_token"))`. -/
def load_tokens (file : Option Json) : Option Json × Option Json :=
  match file with
  | none => (none, none)
  | some j => (jsonGet j "access_token", jsonGet j "refresh_token")

/-! ## Spec-side description of the all-success import trace

`spec_issue_events` and `spec_trace` are written from the specification's
words ("exactly N createMilestone calls in document order, and for each
milestone exactly one createIssue call per issue, issued after that
milestone's createMilestone call, in the milestone's issue order, each
carrying the server-assigned milestone id"), to be compared with the trace
the embedded code produces. -/

/-- The `createIssue` events for issues `j0, j0+1, ...` (`n` of them) of
milestone `i`, each carrying the server id `mid`. -/
def spec_issue_events (i : Nat) (mid : Int) : Nat → Nat → List Event
  | _, 0 => []
  | j0, n + 1 => Event.mkIssue i j0 mid :: spec_issue_events i mid (j0 + 1) n

/-- The call sequence the spec promises on an all-success run: for each
milestone, its `createMilestone` call followed by one `createIssue` call
per issue, carrying that milestone's server id `sid i`. -/
def spec_trace (sid : Nat → Int) : List MilestoneData → Nat → List Event
  | [], _ => []
  | m :: rest, i =>
    Event.mkMilestone i ::
      (spec_issue_events i (sid i) 0 m.issues.length ++ spec_trace sid rest (i + 1))

/-! # Theorems -/

/-- Helper: when every `create_issue` call succeeds, the inner loop emits
exactly one event per issue, in order, with consecutive indices. -/
theorem import_issues_loop_all_ok (i : Nat) (mid : Int) (issues : List IssueData) (j : Nat) :
    import_issues_loop i mid (fun _ _ => IResult.ok) issues j
      = (spec_issue_events i mid j issues.length, true) := by
  induction issues generalizing j with
  | nil => rfl
  | cons a rest ih => simp [import_issues_loop, spec_issue_events, ih]

/-- Helper: when every API call succeeds, the milestone loop starting at
index `i0` produces exactly the trace promised by the spec. -/
theorem import_milestones_loop_all_ok (sid : Nat → Int) (doc : List MilestoneData) (i0 : Nat) :
    import_milestones_loop (fun i => MResult.ok (sid i)) (fun _ _ => IResult.ok) doc i0
      = (spec_trace sid doc i0, true) := by
  induction doc generalizing i0 with
  | nil => rfl
  | cons m rest ih =>
    simp [import_milestones_loop, spec_trace, import_issues_loop_all_ok, ih]

/-- C6: on an import document with all API calls succeeding, the engine
issues exactly one `createMilestone` call per milestone in document order,
and for each milestone exactly one `createIssue` call per issue, after
that milestone's `createMilestone` call and in issue order, each carrying
the server-assigned milestone id as back-reference; the import returns
success. -/
theorem import_data_all_success_trace (doc : List MilestoneData) (sid : Nat → Int) :
    import_data (FileOutcome.parsed doc) (fun i => MResult.ok (sid i)) (fun _ _ => IResult.ok)
      = (spec_trace sid doc 0, true) :=
  import_milestones_loop_all_ok sid doc 0

/-- C5: on a missing import file or one with invalid JSON, `import_data`
returns failure and issues zero network calls (empty event trace), for
every behaviour of the GitHub client. -/
theorem import_data_file_error_no_calls (mO : Nat → MResult) (iO : Nat → Nat → IResult) :
    import_data FileOutcome.missing mO iO = ([], false) ∧
    import_data FileOutcome.badJson mO iO = ([], false) :=
  ⟨rfl, rfl⟩

/-- C1 (counterexample): with a document of two milestones where the
`create_milestone` call for milestone 0 raises, the import makes no
`createIssue` call for milestone 0 but also never issues the
`createMilestone` call for milestone 1 — it aborts with failure —
contradicting the claim that processing continues with milestone `i+1`. -/
theorem import_data_exc_does_not_continue :
    import_data (FileOutcome.parsed [⟨"m0", [⟨"a"⟩]⟩, ⟨"m1", []⟩])
        (fun _ => MResult.exc) (fun _ _ => IResult.ok)
      = ([Event.mkMilestone 0], false) ∧
    Event.mkMilestone 1 ∉
      (import_data (FileOutcome.parsed [⟨"m0", [⟨"a"⟩]⟩, ⟨"m1", []⟩])
        (fun _ => MResult.exc) (fun _ _ => IResult.ok)).1 := by
  decide

/-- C1 (amended): if the `create_milestone` call for the milestone at
position `i` raises an exception, then no `createIssue` call is made for
that milestone and no call at all is made for later milestones: the
whole import aborts, returning failure, with the failing `createMilestone` call
as its last network call. -/
theorem import_milestone_exc_aborts (m : MilestoneData) (rest : List MilestoneData)
    (i : Nat) (mO : Nat → MResult) (iO : Nat → Nat → IResult)
    (h : mO i = MResult.exc) :
    import_milestones_loop mO iO (m :: rest) i = ([Event.mkMilestone i], false) := by
  simp [import_milestones_loop, h]

/-- Witness for `import_milestone_exc_aborts` at a concrete document and
oracle. -/
theorem import_milestone_exc_aborts_witness :
    import_milestones_loop (fun _ => MResult.exc) (fun _ _ => IResult.ok)
        [⟨"m0", [⟨"a"⟩]⟩, ⟨"m1", []⟩] 0
      = ([Event.mkMilestone 0], false) :=
  import_milestone_exc_aborts ⟨"m0", [⟨"a"⟩]⟩ [⟨"m1", []⟩] 0
    (fun _ => MResult.exc) (fun _ _ => IResult.ok) rfl

/-- C10: saving a pair of string tokens and loading them back returns
exactly the saved pair, and loading when no token file exists returns
`(None, None)` without raising. -/
theorem token_storage_roundtrip (a r : String) :
    load_tokens (some (save_tokens a r)) = (some (Json.str a), some (Json.str r)) ∧
    load_tokens none = ((none : Option Json), (none : Option Json)) :=
  ⟨rfl, rfl⟩

/-- C2 (counterexample): on a rate-limited response (`remaining = 0`,
status 403) the client sleeps for the computed wait (`reset - now = 50`)
but issues only 1 physical request, not 2 — it never reissues the request,
contradicting the claim that the request is reissued exactly once. -/
theorem make_request_rate_limited_no_retry :
    (make_request (ReqOutcome.resp ⟨403, HeaderVal.val 0, HeaderVal.val 150, HeaderVal.absent⟩)
        100).sleeps = [50] ∧
    (make_request (ReqOutcome.resp ⟨403, HeaderVal.val 0, HeaderVal.val 150, HeaderVal.absent⟩)
        100).physicalRequests = 1 ∧
    ¬ (make_request (ReqOutcome.resp ⟨403, HeaderVal.val 0, HeaderVal.val 150, HeaderVal.absent⟩)
        100).physicalRequests = 2 := by
  decide

/-- C2 (amended): every logical call of `_make_request` issues exactly one
physical HTTP request, for every transport outcome — on a rate-limited
response the client sleeps but never reissues the request. -/
theorem make_request_single_physical (o : ReqOutcome) (now : Int) :
    (make_request o now).physicalRequests = 1 := by
  cases o with
  | netExc => rfl
  | resp r =>
    cases hr : handle_rate_limit r now with
    | valueError => simp [make_request, hr]
    | ok rl =>
      simp only [make_request, hr]
      split <;> rfl

/-- C3 (counterexample): on a 401 response, `_make_request` never invokes
the auth manager's refresh operation (`refreshCalls = 0`) and surfaces the
HTTP error directly with no second request, contradicting the claim that a
refresh is invoked and the request retried. -/
theorem make_request_401_no_refresh :
    (make_request (ReqOutcome.resp ⟨401, HeaderVal.val 50, HeaderVal.val 0, HeaderVal.absent⟩)
        100).refreshCalls = 0 ∧
    (make_request (ReqOutcome.resp ⟨401, HeaderVal.val 50, HeaderVal.val 0, HeaderVal.absent⟩)
        100).result = ReqResult.err (RequestError.httpError 401) ∧
    (make_request (ReqOutcome.resp ⟨401, HeaderVal.val 50, HeaderVal.val 0, HeaderVal.absent⟩)
        100).physicalRequests = 1 := by
  decide

/-- C3 (amended): for every 401 response, `_make_request` makes no call to
the credential store's refresh operation and surfaces a failure (the
`HTTPError` from `raise_for_status`, or a `ValueError` when a rate-limit
header is malformed) without issuing any further request. -/
theorem make_request_401_no_refresh_general (r : HttpResponse) (now : Int)
    (h : r.status = 401) :
    (make_request (ReqOutcome.resp r) now).refreshCalls = 0 ∧
    ((make_request (ReqOutcome.resp r) now).result = ReqResult.err RequestError.valueError ∨
      (make_request (ReqOutcome.resp r) now).result
        = ReqResult.err (RequestError.httpError 401)) := by
  cases hr : handle_rate_limit r now with
  | valueError => simp [make_request, hr]
  | ok rl =>
    have h400 : ¬ r.status < 400 := by omega
    simp [make_request, hr, h400, h]

/-- Witness for `make_request_401_no_refresh_general` at a concrete 401
response. -/
theorem make_request_401_no_refresh_general_witness :
    (make_request (ReqOutcome.resp ⟨401, HeaderVal.val 50, HeaderVal.val 7, HeaderVal.absent⟩)
        3).refreshCalls = 0 ∧
    ((make_request (ReqOutcome.resp ⟨401, HeaderVal.val 50, HeaderVal.val 7, HeaderVal.absent⟩)
        3).result = ReqResult.err RequestError.valueError ∨
      (make_request (ReqOutcome.resp ⟨401, HeaderVal.val 50, HeaderVal.val 7, HeaderVal.absent⟩)
        3).result = ReqResult.err (RequestError.httpError 401)) :=
  make_request_401_no_refresh_general ⟨401, HeaderVal.val 50, HeaderVal.val 7, HeaderVal.absent⟩
    3 rfl

/-- C4 (counterexample): a response with `remaining = 5` (positive) and no
`Retry-After` header still makes the client sleep, for
`reset - now = 100` seconds — contradicting the claim that the client
waits only when `remaining = 0` or an explicit retry-after delay is
given. -/
theorem handle_rate_limit_waits_on_positive_remaining :
    handle_rate_limit ⟨200, HeaderVal.val 5, HeaderVal.val 200, HeaderVal.absent⟩ 100
      = RLOutcome.ok ⟨5, 200, true, 100⟩ ∧ (0 : Int) < 5 ∧ (0 : Int) < 100 := by
  decide

/-- C4 (amended): for every response with well-formed rate-limit headers,
`_handle_rate_limit` sleeps exactly when `remaining < 10` (not
`remaining = 0`), the wait duration is `max (reset - now) 0`, and the
`Retry-After` header `ra` has no influence on the outcome. -/
theorem handle_rate_limit_policy (st : Nat) (rem rst now : Int) (ra : HeaderVal)
    (r : RateLimitResult)
    (h : handle_rate_limit ⟨st, HeaderVal.val rem, HeaderVal.val rst, ra⟩ now = RLOutcome.ok r) :
    (r.slept = true ↔ rem < 10) ∧
    r.waitTime = (if rem < 10 then max (rst - now) 0 else 0) ∧
    r.remaining = rem ∧ r.reset = rst := by
  simp only [handle_rate_limit, parseIntHeader] at h
  by_cases hlt : rem < 10
  · rw [if_pos hlt] at h
    cases h
    simp [hlt]
  · rw [if_neg hlt] at h
    cases h
    simp [hlt]

/-- Witness for `handle_rate_limit_policy` at a concrete response. -/
theorem handle_rate_limit_policy_witness :
    (((⟨5, 200, true, 100⟩ : RateLimitResult).slept = true ↔ (5 : Int) < 10) ∧
      (⟨5, 200, true, 100⟩ : RateLimitResult).waitTime
        = (if (5 : Int) < 10 then max ((200 : Int) - 100) 0 else 0) ∧
      (⟨5, 200, true, 100⟩ : RateLimitResult).remaining = 5 ∧
      (⟨5, 200, true, 100⟩ : RateLimitResult).reset = 200) :=
  handle_rate_limit_policy 200 5 200 100 HeaderVal.absent ⟨5, 200, true, 100⟩ (by decide)

/-- C8 (counterexample): a response with a malformed
`X-RateLimit-Remaining` header does not complete: the `int()` conversion
raises `ValueError`, which escapes `_make_request` — contradicting the
claim that the request completes whenever headers are absent or
malformed. -/
theorem make_request_malformed_header_raises :
    (make_request (ReqOutcome.resp ⟨200, HeaderVal.malformed, HeaderVal.val 0, HeaderVal.absent⟩)
        100).result = ReqResult.err RequestError.valueError := by
  decide

/-- C8 (amended): with absent rate-limit headers the client treats
`remaining` as `0` and sleeps for `max (0 - now) 0 = 0` seconds — no
positive-duration wait — and a 2xx request completes normally; with a
malformed header, however, the call raises `ValueError` (no sleep at all)
instead of completing. -/
theorem make_request_header_edge_cases (st : Nat) (now : Int) (h0 : 0 ≤ now) :
    (make_request (ReqOutcome.resp ⟨st, HeaderVal.absent, HeaderVal.absent, HeaderVal.absent⟩)
        now).sleeps = [0] ∧
    (st < 400 →
      (make_request (ReqOutcome.resp ⟨st, HeaderVal.absent, HeaderVal.absent, HeaderVal.absent⟩)
          now).result
        = ReqResult.ok ⟨st, HeaderVal.absent, HeaderVal.absent, HeaderVal.absent⟩) ∧
    (make_request (ReqOutcome.resp ⟨st, HeaderVal.malformed, HeaderVal.absent, HeaderVal.absent⟩)
        now).result = ReqResult.err RequestError.valueError ∧
    (make_request (ReqOutcome.resp ⟨st, HeaderVal.malformed, HeaderVal.absent, HeaderVal.absent⟩)
        now).sleeps = [] := by
  have hmax : max ((0 : Int) - now) 0 = 0 := max_eq_right (by omega)
  refine ⟨?_, ?_, rfl, rfl⟩
  · simp only [make_request, handle_rate_limit, parseIntHeader]
    rw [if_pos (by norm_num : (0 : Int) < 10)]
    simp only [hmax]
    split <;> rfl
  · intro hst
    simp only [make_request, handle_rate_limit, parseIntHeader]
    rw [if_pos (by norm_num : (0 : Int) < 10)]
    simp [hst]

/-- Witness for `make_request_header_edge_cases` at status 200,
`now = 100`. -/
theorem make_request_header_edge_cases_witness :
    (make_request (ReqOutcome.resp ⟨200, HeaderVal.absent, HeaderVal.absent, HeaderVal.absent⟩)
        100).sleeps = [0] ∧
    (200 < 400 →
      (make_request (ReqOutcome.resp ⟨200, HeaderVal.absent, HeaderVal.absent, HeaderVal.absent⟩)
          100).result
        = ReqResult.ok ⟨200, HeaderVal.absent, HeaderVal.absent, HeaderVal.absent⟩) ∧
    (make_request (ReqOutcome.resp ⟨200, HeaderVal.malformed, HeaderVal.absent, HeaderVal.absent⟩)
        100).result = ReqResult.err RequestError.valueError ∧
    (make_request (ReqOutcome.resp ⟨200, HeaderVal.malformed, HeaderVal.absent, HeaderVal.absent⟩)
        100).sleeps = [] :=
  make_request_header_edge_cases 200 100 (by decide)

/-- Helper: every node id in the input list gets its delete mutation
attempted, in order, no matter how the individual deletions fare. -/
theorem delete_issues_individually_attempts_all (dO : Nat → DelOutcome)
    (ids : List String) (k : Nat) :
    (delete_issues_individually dO ids k).attempted = ids := by
  induction ids generalizing k with
  | nil => rfl
  | cons a rest ih =>
    cases h : dO k <;> simp [delete_issues_individually, h, ih]

/-- Helper: on a well-formed page sequence (every page but the last
reports `hasNextPage`, the last does not) the pagination loop issues one
query per page and collects all node ids in order. -/
theorem collect_issue_ids_pages (front : List GqlPage) (lastp : GqlPage)
    (hfront : ∀ p ∈ front, p.hasNextPage = true) (hlast : lastp.hasNextPage = false) :
    collect_issue_ids ((front ++ [lastp]).map ListOutcome.page)
      = CollectResult.done (front.length + 1) (((front ++ [lastp]).map GqlPage.nodes).flatten) := by
  induction front with
  | nil => simp [collect_issue_ids, hlast]
  | cons p rest ih =>
    have hp : p.hasNextPage = true := hfront p (List.mem_cons_self p rest)
    have hrest : ∀ q ∈ rest, q.hasNextPage = true :=
      fun q hq => hfront q (List.mem_cons_of_mem p hq)
    have ih2 := ih hrest
    simp only [List.map_append, List.map_cons, List.map_nil] at ih2
    simp [collect_issue_ids, hp, ih2]

/-- C7: for a repository whose issues are spread over `front.length + 1`
GraphQL pages (all but the last reporting `hasNextPage`), `delete_all_issues`
issues exactly one cursor-paginated list query per page and then runs the
individual-deletion pass over all collected node ids; that pass attempts a
delete mutation for every id, in order, for every per-issue outcome oracle
`dO` — so a failure deleting issue `k` never prevents the deletions of
issues `k+1..M` from being attempted. -/
theorem delete_all_issues_pages_and_attempts (front : List GqlPage) (lastp : GqlPage)
    (dO : Nat → DelOutcome)
    (hfront : ∀ p ∈ front, p.hasNextPage = true) (hlast : lastp.hasNextPage = false) :
    delete_all_issues ((front ++ [lastp]).map ListOutcome.page) dO
      = BulkDeleteResult.done (front.length + 1)
          (delete_issues_individually dO (((front ++ [lastp]).map GqlPage.nodes).flatten) 0) ∧
    (delete_issues_individually dO (((front ++ [lastp]).map GqlPage.nodes).flatten) 0).attempted
      = ((front ++ [lastp]).map GqlPage.nodes).flatten := by
  constructor
  · have hcoll := collect_issue_ids_pages front lastp hfront hlast
    simp only [List.map_append, List.map_cons, List.map_nil] at hcoll ⊢
    simp [delete_all_issues, hcoll]
  · exact delete_issues_individually_attempts_all dO _ 0

/-- Witness for `delete_all_issues_pages_and_attempts`: two pages holding
three issues, every delete mutation failing with an HTTP error. -/
theorem delete_all_issues_pages_and_attempts_witness :
    delete_all_issues
        (([GqlPage.mk ["a", "b"] true] ++ [GqlPage.mk ["c"] false]).map ListOutcome.page)
        (fun _ => DelOutcome.httpExc)
      = BulkDeleteResult.done (List.length [GqlPage.mk ["a", "b"] true] + 1)
          (delete_issues_individually (fun _ => DelOutcome.httpExc)
            ((([GqlPage.mk ["a", "b"] true] ++ [GqlPage.mk ["c"] false]).map
              GqlPage.nodes).flatten) 0) ∧
    (delete_issues_individually (fun _ => DelOutcome.httpExc)
        ((([GqlPage.mk ["a", "b"] true] ++ [GqlPage.mk ["c"] false]).map
          GqlPage.nodes).flatten) 0).attempted
      = (([GqlPage.mk ["a", "b"] true] ++ [GqlPage.mk ["c"] false]).map GqlPage.nodes).flatten :=
  delete_all_issues_pages_and_attempts [GqlPage.mk ["a", "b"] true] (GqlPage.mk ["c"] false)
    (fun _ => DelOutcome.httpExc) (by simp) rfl

/-- C9: `refresh_access_token` returns `True` exactly when a new access
token (the one in the server's response) has been installed in the
credential state; whenever it returns `False` (no refresh token, HTTP
error, or no `access_token` in the response) the stored state — in
particular the access token — is left unchanged. -/
theorem refresh_access_token_spec (st : AuthState) (o : RefreshOutcome) (b : Bool)
    (st2 : AuthState)
    (h : refresh_access_token st o = RefreshResult.returned b st2) :
    (b = true → ∃ tok newR, o = RefreshOutcome.jsonToken tok newR ∧
      st2.accessToken = some tok) ∧
    (b = false → st2 = st) := by
  unfold refresh_access_token at h
  cases hrt : st.refreshToken with
  | none =>
    rw [hrt] at h
    injection h with h1 h2
    subst h1
    subst h2
    exact ⟨fun hb => Bool.noConfusion hb, fun _ => rfl⟩
  | some rt =>
    rw [hrt] at h
    cases o with
    | netExc => exact RefreshResult.noConfusion h
    | httpError =>
      injection h with h1 h2
      subst h1
      subst h2
      exact ⟨fun hb => Bool.noConfusion hb, fun _ => rfl⟩
    | jsonNoToken =>
      injection h with h1 h2
      subst h1
      subst h2
      exact ⟨fun hb => Bool.noConfusion hb, fun _ => rfl⟩
    | jsonToken tok newR =>
      injection h with h1 h2
      subst h1
      constructor
      · intro _
        exact ⟨tok, newR, rfl, by rw [← h2]⟩
      · intro hb
        exact Bool.noConfusion hb

/-- Witness for `refresh_access_token_spec`: a successful refresh
installing the response's token while keeping the old refresh token. -/
theorem refresh_access_token_spec_witness :
    ((true = true → ∃ tok newR,
        RefreshOutcome.jsonToken "newTok" (none : Option String)
          = RefreshOutcome.jsonToken tok newR ∧
        (AuthState.mk (some "newTok") (some "r1")).accessToken = some tok) ∧
      (true = false →
        AuthState.mk (some "newTok") (some "r1") = AuthState.mk (some "oldTok") (some "r1"))) :=
  refresh_access_token_spec ⟨some "oldTok", some "r1"⟩
    (RefreshOutcome.jsonToken "newTok" none) true ⟨some "newTok", some "r1"⟩ rfl
